import Mathlib

/-!
Verification development for a small ESP32 firmware repository consisting of
two unconnected components:

* `src/firmware/firebeetle_esp32c6/main/main.cpp` — an ESP-IDF application
  whose `app_main` blinks an LED (100 ms high / 900 ms low), reads one ADC
  channel once per period, converts the raw reading to a voltage and writes a
  JSON-formatted telemetry line to the device log at INFO severity.
* `src/esp32_web_interface.h` — a board-visualization dashboard: a static
  pin-layout table (`BOARD_CONFIG_JSON`) and a page generator
  (`generateWebInterface`) that embeds client-side JavaScript; the
  `updatePinStates` script polls `/api/pins` and renders markers and pin
  controls.

The C++ and embedded JavaScript are shallowly embedded below: pure string
building is transcribed verbatim (the long HTML/CSS/JS literals are split at
exactly the concatenation points of the source), the sampling loop's blink
timing becomes an explicit action list with a duration semantics, and the
client's DOM updates become functions from the fetched pin data to a record
of rendered markers, control blocks and placeholder text.
-/

set_option linter.unusedVariables false

/-! ## Sampling loop (src/firmware/firebeetle_esp32c6/main/main.cpp) -/

/-- `ESP_OK`, the success value of `esp_err_t` (0). -/
def ESP_OK : ℤ := 0

/-- `ESP_ERR_TIMEOUT` (0x107), a representative nonzero `esp_err_t` failure
code that `adc_oneshot_read` can return. -/
def ESP_ERR_TIMEOUT : ℤ := 263

/-- `#define LED_GPIO GPIO_NUM_15` (main.cpp line 13). -/
def LED_GPIO : ℕ := 15

/-- One step of the `while (1)` loop body that affects the LED timeline
(main.cpp lines 49–68): a GPIO level write, a `vTaskDelay` of a number of
milliseconds, or the ADC-read-and-log tail of the body (which performs no
delay and no GPIO write). -/
inductive LoopStep where
  | gpioSetLevel (gpio : ℕ) (level : Bool)
  | vTaskDelayMs (ms : ℕ)
  | readAndLog

/-- The loop body in source order (main.cpp lines 50–68):
`gpio_set_level(LED_GPIO, 1); vTaskDelay(100); gpio_set_level(LED_GPIO, 0);
vTaskDelay(900);` then the ADC read and log write. -/
def loopBodySteps : List LoopStep :=
  [LoopStep.gpioSetLevel LED_GPIO true, LoopStep.vTaskDelayMs 100,
   LoopStep.gpioSetLevel LED_GPIO false, LoopStep.vTaskDelayMs 900,
   LoopStep.readAndLog]

/-- Timing semantics of a step list: starting from a current LED level,
each delay contributes a segment (level held, duration in ms); level writes
switch the level and take no time, as does the read-and-log tail. -/
def segmentsOf : Bool → List LoopStep → List (Bool × ℕ)
  | _, [] => []
  | _, LoopStep.gpioSetLevel _ b :: rest => segmentsOf b rest
  | lvl, LoopStep.vTaskDelayMs n :: rest => (lvl, n) :: segmentsOf lvl rest
  | lvl, LoopStep.readAndLog :: rest => segmentsOf lvl rest

/-- Duration of one loop iteration in milliseconds: the sum of the delay
segments of the body (= 1000). -/
def periodMs : ℕ := ((segmentsOf false loopBodySteps).map Prod.snd).sum

/-- The LED level at offset `t` into a segment list: the level of the segment
that `t` falls in (`false` past the end). -/
def levelInSegments : List (Bool × ℕ) → ℕ → Bool
  | [], _ => false
  | (b, d) :: rest, t => if t < d then b else levelInSegments rest (t - d)

/-- The LED level `t` milliseconds after the loop starts: the loop repeats its
body forever, so the level is read off the body's segments at `t % periodMs`. -/
def ledLevelAt (t : ℕ) : Bool :=
  levelInSegments (segmentsOf false loopBodySteps) (t % periodMs)

/-- The voltage conversion of the loop body (main.cpp line 62):
`float voltage = (adc_raw / 4095.0) * 3.3 * 2;`, with the real arithmetic
carried out in `ℚ`. -/
def voltage (adc_raw : ℤ) : ℚ :=
  ((adc_raw : ℚ) / 4095) * (33 / 10) * 2

/-- The `esp_log` severity levels; `ESP_LOGI` writes at `info`. -/
inductive LogSeverity where
  | logError
  | warn
  | info
  | debug
deriving DecidableEq

/-- A JSON value as ArduinoJson stores it in the document: a string, or a
number already rendered to its serialized text. -/
inductive JsonVal where
  | jstr (s : String)
  | jraw (s : String)
deriving DecidableEq

/-- Serialization of one member, ArduinoJson style: `"key":"string"` or
`"key":number`, with no spaces. -/
def serializeField : String × JsonVal → String
  | (k, JsonVal.jstr s) => "\"" ++ k ++ "\":\"" ++ s ++ "\""
  | (k, JsonVal.jraw s) => "\"" ++ k ++ "\":" ++ s

/-- Comma-separated serialization of the document's members in insertion
order, ArduinoJson style. -/
def serializeFields : List (String × JsonVal) → String
  | [] => ""
  | [f] => serializeField f
  | f :: g :: rest => serializeField f ++ "," ++ serializeFields (g :: rest)

/-- `serializeJson` of an object document: the members wrapped in braces. -/
def serializeJson (fields : List (String × JsonVal)) : String :=
  "\x7b" ++ serializeFields fields ++ "\x7d"

/-- The `JsonDocument doc` at serialization time (main.cpp lines 45–47, 64):
`doc["sensor"] = "battery"` and `doc["value"] = voltage` — the value member
holds the float, here represented by its serialized text. -/
def telemetryDoc (valueText : String) : List (String × JsonVal) :=
  [("sensor", JsonVal.jstr "battery"), ("value", JsonVal.jraw valueText)]

/-- Outcome of one `adc_oneshot_read` call: the returned `esp_err_t` and the
raw sample it stored (meaningful when `err = ESP_OK`). -/
structure AdcReadResult where
  err : ℤ
  raw : ℤ
deriving DecidableEq

/-- The log message written by `ESP_LOGI(TAG, "Telemetry: %s", buffer)`
(main.cpp line 68) for a raw reading: the literal prefix `Telemetry: `
followed by the serialized JSON document. `fmtFloat` renders the float
`voltage adc_raw` to its serialized digits (the textual float formatting of
the C library is kept abstract; every theorem below holds for all of them). -/
def emittedLine (fmtFloat : ℚ → String) (adc_raw : ℤ) : String :=
  "Telemetry: " ++ serializeJson (telemetryDoc (fmtFloat (voltage adc_raw)))

/-- One pass of the read-convert-log tail of the loop body (main.cpp lines
56–68). `ESP_ERROR_CHECK(adc_oneshot_read(...))` aborts the program when the
read returns anything but `ESP_OK`, so a failing iteration produces no log
entry (`none`); a successful one emits the telemetry line at INFO severity. -/
def sampleIteration (fmtFloat : ℚ → String) (r : AdcReadResult) :
    Option (LogSeverity × String) :=
  if r.err = ESP_OK then some (LogSeverity.info, emittedLine fmtFloat r.raw)
  else none

/-! ## Web interface (src/esp32_web_interface.h) -/

/-- One entry of the static board-layout table (the `pins` array of
`BOARD_CONFIG_JSON`, lines 18–43). -/
structure BoardPin where
  pin : ℕ
  name : String
  x : ℕ
  y : ℕ
  side : String
deriving DecidableEq

/-- The 26 board-layout entries, transcribed from `BOARD_CONFIG_JSON`
(src/esp32_web_interface.h lines 18–43). -/
def boardPins : List BoardPin :=
  [
    { pin := 36, name := "VP/A0", x := 15, y := 60, side := "left" },
    { pin := 39, name := "VN/A3", x := 15, y := 75, side := "left" },
    { pin := 34, name := "A6", x := 15, y := 90, side := "left" },
    { pin := 35, name := "A7", x := 15, y := 105, side := "left" },
    { pin := 32, name := "A4/T9", x := 15, y := 120, side := "left" },
    { pin := 33, name := "A5/T8", x := 15, y := 135, side := "left" },
    { pin := 25, name := "A18/DAC1", x := 15, y := 150, side := "left" },
    { pin := 26, name := "A19/DAC2", x := 15, y := 165, side := "left" },
    { pin := 27, name := "A17/T7", x := 15, y := 180, side := "left" },
    { pin := 14, name := "A16/T6", x := 15, y := 195, side := "left" },
    { pin := 12, name := "A15/T5", x := 15, y := 210, side := "left" },
    { pin := 13, name := "A14/T4", x := 15, y := 225, side := "left" },
    { pin := 2, name := "A12/T2/LED", x := 275, y := 105, side := "right" },
    { pin := 15, name := "A13/T3", x := 275, y := 90, side := "right" },
    { pin := 0, name := "BOOT", x := 275, y := 120, side := "right" },
    { pin := 4, name := "A10/T0", x := 275, y := 135, side := "right" },
    { pin := 16, name := "RX2", x := 275, y := 150, side := "right" },
    { pin := 17, name := "TX2", x := 275, y := 165, side := "right" },
    { pin := 5, name := "SS", x := 275, y := 180, side := "right" },
    { pin := 18, name := "SCK", x := 275, y := 195, side := "right" },
    { pin := 19, name := "MISO", x := 275, y := 210, side := "right" },
    { pin := 21, name := "SDA", x := 275, y := 225, side := "right" },
    { pin := 3, name := "RX0", x := 275, y := 240, side := "right" },
    { pin := 1, name := "TX0", x := 275, y := 255, side := "right" },
    { pin := 22, name := "SCL", x := 275, y := 270, side := "right" },
    { pin := 23, name := "MOSI", x := 275, y := 285, side := "right" }
  ]

/-- One line of the `pins` array exactly as `BOARD_CONFIG_JSON` formats it:
four-space indent, then the five members with a space after each colon. -/
def renderBoardPin (p : BoardPin) : String :=
  "    \x7b\"pin\": " ++ toString p.pin ++ ", \"name\": \"" ++ p.name ++
    "\", \"x\": " ++ toString p.x ++ ", \"y\": " ++ toString p.y ++
    ", \"side\": \"" ++ p.side ++ "\"\x7d"

/-- The whole board-configuration JSON document rendered from a pin table:
the `name` member, then the `pins` array with one entry per line. -/
def renderBoardConfig (ps : List BoardPin) : String :=
  "\x7b\n  \"name\": \"ESP32-WROOM-32\",\n  \"pins\": [\n" ++
    String.intercalate ",\n" (ps.map renderBoardPin) ++ "\n  ]\n\x7d"

/-- A JavaScript pin `state` value as `/api/pins` may deliver it: a string
(`"HIGH"`/`"LOW"`) or a number (`0`/`1`). Strict equality (`===`) never
identifies a string with a number. -/
inductive JsState where
  | str (s : String)
  | num (n : ℤ)
deriving DecidableEq

/-- Strict comparison `state === 'X'` of a state against a string literal:
true only when the state is that very string. -/
def stateEqStr : JsState → String → Bool
  | JsState.str s, t => s == t
  | JsState.num _, _ => false

/-- Strict comparison `state === n` of a state against a number literal. -/
def stateEqNum : JsState → ℤ → Bool
  | JsState.num n, m => n == m
  | JsState.str _, _ => false

/-- The marker-highlight condition of `updatePinStates` (line 183):
`pin.state === 'HIGH' || pin.state === 1`. -/
def pinActiveState (st : JsState) : Bool :=
  stateEqStr st "HIGH" || stateEqNum st 1

/-- One entry of the `/api/pins` response: `{pin, state, type, alias?}`. -/
structure ApiPin where
  pin : ℤ
  state : JsState
  type : String
  «alias» : Option String
deriving DecidableEq

/-- Whether `document.getElementById('pin-' + p)` finds a board marker:
`initBoard` created one marker per configured board pin (lines 148–164). -/
def boardHasPin (p : ℤ) : Bool :=
  boardPins.any (fun b => ((b.pin : ℤ) == p))

/-- The alias part of a control-block header (line 196):
`${pin.alias ? '(' + pin.alias + ')' : ''}` — an absent or empty alias
(both falsy) renders as the empty string. -/
def aliasLabel : Option String → String
  | some a => if a.isEmpty then "" else "(" ++ a ++ ")"
  | none => ""

/-- One rendered pin-control block (lines 192–204): the header's alias text
and the CSS class of each of the two buttons. The HIGH button's class is
`btn-success` when `pin.state === 'HIGH'` and `btn-secondary` otherwise; the
LOW button's is `btn-danger` when `pin.state === 'LOW'` and `btn-secondary`
otherwise (`btn-secondary` is the inactive grey styling). -/
structure PinControlBlock where
  pin : ℤ
  headerAliasText : String
  highButtonClass : String
  lowButtonClass : String
deriving DecidableEq

/-- The control block `updatePinStates` appends for an entry, if any: only
entries with `pin.type === 'gpio_write'` get one (lines 191–204). -/
def mkPinControl (p : ApiPin) : Option PinControlBlock :=
  if p.type == "gpio_write" then
    some { pin := p.pin
         , headerAliasText := aliasLabel p.«alias»
         , highButtonClass :=
             if stateEqStr p.state "HIGH" then "btn-success" else "btn-secondary"
         , lowButtonClass :=
             if stateEqStr p.state "LOW" then "btn-danger" else "btn-secondary" }
  else none

/-- The marker updates of one pass over the entries (lines 181–188): for each
entry whose pin has a board marker, the `pin-active` class is set to the
value of the highlight condition (added when true, removed when false). -/
def markerUpdatesOf (ps : List ApiPin) : List (ℤ × Bool) :=
  ps.filterMap fun p =>
    if boardHasPin p.pin then some (p.pin, pinActiveState p.state) else none

/-- The placeholder message of the empty branch (line 208). -/
def noPinsMessage : String := "No controllable pins in current logic"

/-- What one run of the client's `updatePinStates` renders (lines 170–213):
the marker class updates, the control blocks appended under the
`Pin Controls` heading, and the placeholder paragraph if any. -/
structure PinStatesRender where
  markerUpdates : List (ℤ × Bool)
  controls : List PinControlBlock
  noControlsMessage : Option String
deriving DecidableEq

/-- The client's `updatePinStates` on a parsed `/api/pins` response body
(lines 170–213). `none` stands for a response without a `pins` member:
`if (data.pins && data.pins.length > 0)` walks the entries, otherwise the
placeholder paragraph is appended and nothing else is rendered. -/
def updatePinStates : Option (List ApiPin) → PinStatesRender
  | some ps =>
    if 0 < ps.length then
      { markerUpdates := markerUpdatesOf ps
      , controls := ps.filterMap mkPinControl
      , noControlsMessage := none }
    else
      { markerUpdates := [], controls := [], noControlsMessage := some noPinsMessage }
  | none =>
      { markerUpdates := [], controls := [], noControlsMessage := some noPinsMessage }

/-- The operating mode consumed by `generateWebInterface` (declared outside
this excerpt; only the two values the generator distinguishes matter). -/
inductive OperatingMode where
  | MODE_ONLINE
  | MODE_OFFLINE
deriving DecidableEq

/-- `String statusClass = (mode == MODE_ONLINE) ? "good" : "warning";`
(line 54). -/
def statusClassOf (mode : OperatingMode) : String :=
  if mode = OperatingMode.MODE_ONLINE then "good" else "warning"

/-- `String statusIcon = (mode == MODE_ONLINE) ? "✅" : "⚠️";` (line 55). -/
def statusIconOf (mode : OperatingMode) : String :=
  if mode = OperatingMode.MODE_ONLINE then "✅" else "⚠️"

/-- `String statusText = ...` (line 56). -/
def statusTextOf (mode : OperatingMode) : String :=
  if mode = OperatingMode.MODE_ONLINE then "Online (Connected to Master)"
  else "Offline (Standalone)"

/-- Modelled from the vendor Arduino `String(float value, 1)` (dtostrf with
one decimal digit, not part of this repository): the absolute value plus the
rounding term 0.05, its integer part in decimal, a dot, then the single
first fractional digit, with a leading minus sign for negative inputs. The
real arithmetic is carried out in `ℚ`. -/
def fmt1 (q : ℚ) : String :=
  let a : ℚ := |q| + 1 / 20
  (if q < 0 then "-" else "") ++ toString a.floor.toNat ++ "." ++
    String.singleton (Nat.digitChar ((a * 10).floor.toNat % 10))
/-- The `BOARD_CONFIG_JSON` string constant (src/esp32_web_interface.h lines
15–45), built by rendering the 26-entry table with the source's exact line
format (`renderBoardPin`): evaluating this definition reproduces the source
literal character-for-character. -/
def BOARD_CONFIG_JSON : String := renderBoardConfig boardPins

/-- Verbatim HTML/CSS/JS segment of the `html` concatenation in
`generateWebInterface` (src/esp32_web_interface.h line 58–60, up to the <title> tag). -/
def chunkHead : String := r#"<!DOCTYPE html>
<html><head>
"#

/-- Verbatim HTML/CSS/JS segment of the `html` concatenation in
`generateWebInterface` (src/esp32_web_interface.h lines 60–101: after the title text, metas, CSS, header, up to "<h1>🔧 "). -/
def chunkTitleToH1 : String := r#"
<meta charset='UTF-8'>
<meta name='viewport' content='width=device-width, initial-scale=1.0'>
<style>
body { font-family: 'Segoe UI', Tahoma, Geneva, Verdana, sans-serif; margin: 0; padding: 10px; background: linear-gradient(135deg, #667eea 0%, #764ba2 100%); min-height: 100vh; }
.container { max-width: 1400px; margin: 0 auto; background: white; border-radius: 15px; box-shadow: 0 10px 30px rgba(0,0,0,0.2); overflow: hidden; }
.header { background: linear-gradient(135deg, #4a5568 0%, #2d3748 100%); color: white; padding: 20px; text-align: center; }
.header h1 { margin: 0; font-size: 2em; font-weight: 300; }
.header h2 { margin: 5px 0 0 0; font-size: 1em; opacity: 0.8; font-weight: normal; }
.content { padding: 20px; display: grid; grid-template-columns: 1fr 2fr; gap: 20px; }
.board-section { background: #f8f9fa; padding: 20px; border-radius: 10px; }
.board-container { position: relative; width: 290px; height: 500px; margin: 0 auto; background: #2d3748; border-radius: 10px; }
.pin { position: absolute; width: 12px; height: 12px; border-radius: 50%; border: 2px solid white; cursor: pointer; transition: all 0.2s; }
.pin:hover { transform: scale(1.3); z-index: 10; }
.pin-label { position: absolute; font-size: 0.7em; color: white; pointer-events: none; white-space: nowrap; }
.pin-left { background: #3b82f6; }
.pin-right { background: #10b981; }
.pin-active { background: #fbbf24 !important; box-shadow: 0 0 10px #fbbf24; }
.logs-section { }
.sensor-grid { display: grid; grid-template-columns: repeat(auto-fit, minmax(150px, 1fr)); gap: 15px; margin-bottom: 20px; }
.sensor-card { background: #f8f9fa; padding: 15px; border-radius: 8px; border: 1px solid #e9ecef; }
.sensor-value { font-size: 1.8em; font-weight: bold; color: #2d3748; }
.sensor-label { color: #718096; font-size: 0.9em; margin-bottom: 5px; }
.status { padding: 12px; margin: 15px 0; border-radius: 8px; display: flex; align-items: center; }
.status.good { background-color: #d4edda; color: #155724; border-left: 4px solid #28a745; }
.status.warning { background-color: #fff3cd; color: #856404; border-left: 4px solid #ffc107; }
.log-monitor { background: #1a202c; color: #48bb78; padding: 15px; border-radius: 5px; font-family: monospace; height: 350px; overflow-y: auto; font-size: 0.85em; white-space: pre-wrap; }
.btn { padding: 10px 20px; border: none; border-radius: 6px; cursor: pointer; font-size: 0.9em; transition: all 0.2s; margin: 5px; }
.btn-primary { background: #4a5568; color: white; }
.btn-primary:hover { background: #2d3748; }
.btn-success { background: #10b981; color: white; }
.btn-danger { background: #ef4444; color: white; }
.btn-secondary { background: #e2e8f0; color: #4a5568; }
.pin-controls { margin-top: 15px; }
.pin-control { background: white; padding: 10px; margin: 8px 0; border-radius: 6px; border: 1px solid #e2e8f0; }
.pin-control-header { font-weight: 600; margin-bottom: 8px; display: flex; justify-content: space-between; align-items: center; }
@media (max-width: 1024px) { .content { grid-template-columns: 1fr; } }
</style>
</head><body>
<div class='container'>
<div class='header'>
<h1>🔧 "#

/-- Verbatim HTML/CSS/JS segment of the `html` concatenation in
`generateWebInterface` (src/esp32_web_interface.h lines 101–113: after the first sensorName, up to "<div class='status "). -/
def chunkH1ToStatus : String := r#"</h1>
<h2>ESP32 Interactive Board Monitor</h2>
</div>
<div class='content'>
<div class='board-section'>
<h3 style='margin-top: 0;'>🖥️ Board Visualization</h3>
<div class='board-container' id='boardContainer'>
<!-- Pins will be dynamically added here -->
</div>
<div class='pin-controls' id='pinControls'></div>
</div>
<div class='logs-section'>
<div class='status "#

/-- Verbatim HTML/CSS/JS segment of the `html` concatenation in
`generateWebInterface` (src/esp32_web_interface.h lines 113–114: after statusClass, up to the icon span). -/
def chunkStatusToIcon : String := r#"'>
<span style='font-size: 1.3em; margin-right: 10px;'>"#

/-- Verbatim HTML/CSS/JS segment of the `html` concatenation in
`generateWebInterface` (src/esp32_web_interface.h lines 114–115: after statusIcon, up to the status text). -/
def chunkIconToText : String := r#"</span>
<span><strong>Status:</strong> "#

/-- Verbatim HTML/CSS/JS segment of the `html` concatenation in
`generateWebInterface` (src/esp32_web_interface.h lines 115–120: after statusText, up to the temperature value). -/
def chunkTextToTemp : String := r#"</span>
</div>
<div class='sensor-grid'>
<div class='sensor-card'>
<div class='sensor-label'>🌡️ Temperature</div>
<div class='sensor-value'>"#

/-- Verbatim HTML/CSS/JS segment of the `html` concatenation in
`generateWebInterface` (src/esp32_web_interface.h lines 120–124: after "°C", up to the relay value). -/
def chunkTempToRelay : String := r#"</div>
</div>
<div class='sensor-card'>
<div class='sensor-label'>🔌 Relay</div>
<div class='sensor-value'>"#

/-- Verbatim HTML/CSS/JS segment of the `html` concatenation in
`generateWebInterface` (src/esp32_web_interface.h lines 124–128: after the relay value, up to the uptime value). -/
def chunkRelayToUptime : String := r#"</div>
</div>
<div class='sensor-card'>
<div class='sensor-label'>⏱️ Uptime</div>
<div class='sensor-value' style='font-size: 1.2em;'>"#

/-- Verbatim HTML/CSS/JS segment of the `html` concatenation in
`generateWebInterface` (src/esp32_web_interface.h lines 128–141: after the uptime value, up to "const BOARD_CONFIG = "). -/
def chunkUptimeToConfig : String := r#"s</div>
</div>
</div>
<h3>📟 Live Logs</h3>
<div id='serialMonitor' class='log-monitor'>Connecting...</div>
<div>
<button class='btn btn-secondary' onclick='clearSerial()'>🗑️ Clear</button>
<button class='btn btn-secondary' onclick='toggleAutoScroll()' id='autoScrollBtn'>⬇️ Auto-scroll: ON</button>
</div>
</div>
</div>
</div>
<script>
const BOARD_CONFIG = "#

/-- Verbatim HTML/CSS/JS segment of the `html` concatenation in
`generateWebInterface` (src/esp32_web_interface.h lines 141–254: the rest of the embedded script and closing tags). -/
def chunkTail : String := r#";
let autoScroll = true;
let activePins = new Map();

// Initialize board
function initBoard() {
  const container = document.getElementById('boardContainer');
  BOARD_CONFIG.pins.forEach(pinInfo => {
    const pin = document.createElement('div');
    pin.className = 'pin pin-' + pinInfo.side;
    pin.style.left = pinInfo.x + 'px';
    pin.style.top = pinInfo.y + 'px';
    pin.title = `Pin ${pinInfo.pin} - ${pinInfo.name}`;
    pin.id = 'pin-' + pinInfo.pin;
    
    const label = document.createElement('div');
    label.className = 'pin-label';
    label.textContent = pinInfo.name;
    label.style.left = (pinInfo.side === 'left' ? pinInfo.x + 15 : pinInfo.x - 40) + 'px';
    label.style.top = (pinInfo.y - 2) + 'px';
    
    container.appendChild(pin);
    container.appendChild(label);
  });
  
  // Fetch pin states from device
  updatePinStates();
}

async function updatePinStates() {
  try {
    const response = await fetch('/api/pins');
    const data = await response.json();
    
    const controlsContainer = document.getElementById('pinControls');
    controlsContainer.innerHTML = '<h4 style="margin-top: 15px;">Pin Controls</h4>';
    
    if (data.pins && data.pins.length > 0) {
      data.pins.forEach(pin => {
        // Update visual indicator
        const pinEl = document.getElementById('pin-' + pin.pin);
        if (pinEl) {
          if (pin.state === 'HIGH' || pin.state === 1) {
            pinEl.classList.add('pin-active');
          } else {
            pinEl.classList.remove('pin-active');
          }
        }
        
        // Add control if it's a write pin
        if (pin.type === 'gpio_write') {
          const control = document.createElement('div');
          control.className = 'pin-control';
          control.innerHTML = `
            <div class='pin-control-header'>
              <span>Pin ${pin.pin} ${pin.alias ? '(' + pin.alias + ')' : ''}</span>
              <span style='font-size: 0.8em; color: #718096;'>${pin.type}</span>
            </div>
            <button class='btn ${pin.state === 'HIGH' ? 'btn-success' : 'btn-secondary'}' 
                    onclick='setPinState(${pin.pin}, "HIGH")'>HIGH</button>
            <button class='btn ${pin.state === 'LOW' ? 'btn-danger' : 'btn-secondary'}' 
                    onclick='setPinState(${pin.pin}, "LOW")'>LOW</button>
          `;
          controlsContainer.appendChild(control);
        }
      });
    } else {
      controlsContainer.innerHTML += '<p style="color: #718096;">No controllable pins in current logic</p>';
    }
  } catch (e) {
    console.error('Failed to fetch pin states', e);
  }
}

async function setPinState(pin, value) {
  try {
    const response = await fetch('/api/pin-control', {
      method: 'POST',
      headers: { 'Content-Type': 'application/json' },
      body: JSON.stringify({ pin: pin, value: value })
    });
    
    if (response.ok) {
      updatePinStates();
    }
  } catch (e) {
    console.error('Failed to set pin', e);
  }
}

function toggleAutoScroll() { 
  autoScroll = !autoScroll; 
  document.getElementById('autoScrollBtn').innerText = '⬇️ Auto-scroll: ' + (autoScroll ? 'ON' : 'OFF'); 
}

function clearSerial() { 
  document.getElementById('serialMonitor').innerHTML = ''; 
}

async function updateSerial() {
  try {
    const response = await fetch('/api/serial');
    const logs = await response.json();
    const monitor = document.getElementById('serialMonitor');
    monitor.innerHTML = logs.join('<br>');
    if (autoScroll) monitor.scrollTop = monitor.scrollHeight;
  } catch (e) { console.error('Serial update failed', e); }
}

initBoard();
setInterval(updateSerial, 2000);
setInterval(updatePinStates, 3000);
</script>
</body></html>"#
/-- `generateWebInterface` (src/esp32_web_interface.h lines 50–257): the
source's single `html` concatenation, with each C++ raw-string literal held
by the `chunk…` constants above and the short literals around the inserted
context fields (`"<title>"`, `" - ESP32</title>"`, `"°C"`) split off at the
insertion points. `String(temperature, 1)` is `fmt1`, `String(uptime)` is
`toString`, and the relay ternary renders `"ON"`/`"OFF"`. `sensorId`,
`sensorType`, `masterUrl` and `firmwareVersion` are accepted and unused,
as in the source. -/
def generateWebInterface (sensorName sensorId sensorType : String)
    (mode : OperatingMode) (masterUrl firmwareVersion : String)
    (temperature : ℚ) (relayState : Bool) (uptime : ℕ) : String :=
  chunkHead ++ "<title>" ++ sensorName ++ " - ESP32</title>" ++ chunkTitleToH1 ++
    sensorName ++ chunkH1ToStatus ++ statusClassOf mode ++ chunkStatusToIcon ++
    statusIconOf mode ++ chunkIconToText ++ statusTextOf mode ++ chunkTextToTemp ++
    fmt1 temperature ++ "°C" ++ chunkTempToRelay ++
    (if relayState then "ON" else "OFF") ++ chunkRelayToUptime ++
    toString uptime ++ chunkUptimeToConfig ++ BOARD_CONFIG_JSON ++ chunkTail

/-! ## Theorems

In the claim theorems below, `/api/pins` entries are written with the
explicit constructor: `ApiPin.mk pin state type alias`, and rendered control
blocks as `PinControlBlock.mk pin headerAliasText highButtonClass
lowButtonClass`. -/

/-- C1 fails as stated: at a read that returns `ESP_ERR_TIMEOUT`, the
`ESP_ERROR_CHECK` wrapper aborts the program and the iteration emits no log
line, so the loop does not "continue and emit a log line regardless of the
outcome of the analog read". -/
theorem failed_read_emits_no_log_line :
    sampleIteration (fun _ => "0.00") { err := ESP_ERR_TIMEOUT, raw := 0 } = none := rfl

/-- C1 (amended): once the sampling loop is running, an iteration emits a
log line exactly when its analog read returns `ESP_OK`; a failed read is
distinguished from a successful one — it aborts through `ESP_ERROR_CHECK`,
the same mechanism as initialization failures, and emits nothing. -/
theorem sampling_iteration_logs_iff_read_ok (fmtFloat : ℚ → String)
    (r : AdcReadResult) :
    (sampleIteration fmtFloat r).isSome = true ↔ r.err = ESP_OK := by
  by_cases h : r.err = ESP_OK <;> simp [sampleIteration, h]

/-- C2: the sampling loop's conversion `(raw/4095)*3.3*2` sends the raw
readings 0, 2048 and 4095 to 0 V, ≈3.30 V and ≈6.60 V (the last two within a
0.01 V tolerance; in `ℚ` the 4095 case is exact and the 2048 case differs
from 3.30 by 11/13650 ≈ 0.0008). -/
theorem voltage_conversion_values :
    voltage 0 = 0 ∧ |voltage 2048 - 33/10| < 1/100 ∧ |voltage 4095 - 66/10| < 1/100 := by
  refine ⟨by norm_num [voltage], ?_, ?_⟩ <;>
    · rw [abs_lt]
      constructor <;> norm_num [voltage]

/-- C3: for a `/api/pins` response with exactly one entry, of type
`gpio_write` and state `"LOW"`, the client renders exactly one control
block; its LOW button carries the active `btn-danger` styling, its HIGH
button the inactive `btn-secondary` styling, and no placeholder is shown. -/
theorem single_low_write_pin_control (p : ℤ) (a : Option String) :
    (updatePinStates (some [ApiPin.mk p (JsState.str "LOW") "gpio_write" a])).controls =
      [PinControlBlock.mk p (aliasLabel a) "btn-secondary" "btn-danger"] ∧
    (updatePinStates (some [ApiPin.mk p (JsState.str "LOW") "gpio_write" a])).noControlsMessage =
      none :=
  ⟨rfl, rfl⟩

/-- C6: on an empty pin list the client renders the placeholder paragraph
`No controllable pins in current logic` and zero control blocks (and no
marker updates). -/
theorem empty_pin_list_placeholder :
    updatePinStates (some []) =
      PinStatesRender.mk [] [] (some noPinsMessage) ∧
    noPinsMessage = "No controllable pins in current logic" :=
  ⟨rfl, rfl⟩

/-- C7: the heartbeat output repeats with the constant period `periodMs`
= 1000 ms; within every period the pin is high for exactly the first 100 ms
and low for the remaining 900 ms, indefinitely. -/
theorem heartbeat_duty_cycle (t : ℕ) :
    periodMs = 1000 ∧ (ledLevelAt t = true ↔ t % 1000 < 100) ∧
      ledLevelAt (t + 1000) = ledLevelAt t := by
  refine ⟨rfl, ?_, ?_⟩
  · unfold ledLevelAt
    rw [show segmentsOf false loopBodySteps = [(true, 100), (false, 900)] from rfl,
      show periodMs = 1000 from rfl]
    by_cases h : t % 1000 < 100
    · simp [levelInSegments, h]
    · have h2 : t % 1000 - 100 < 900 := by
        have := Nat.mod_lt t (show 0 < 1000 by norm_num)
        omega
      simp [levelInSegments, h, h2]
  · unfold ledLevelAt
    rw [show periodMs = 1000 from rfl, Nat.add_mod_right]

/-- C8 fails as stated: the concrete log line for a raw reading of 0 is
`Telemetry: {"sensor":"battery","value":0}` — because of the fixed
`Telemetry: ` prefix of the `ESP_LOGI` format string it is not itself a JSON
object string: no choice of value text makes it one. -/
theorem telemetry_line_not_bare_json :
    emittedLine (fun _ => "0") 0 =
      "Telemetry: \x7b\"sensor\":\"battery\",\"value\":0\x7d" ∧
    ¬ ∃ v, emittedLine (fun _ => "0") 0 =
        "\x7b\"sensor\":\"battery\",\"value\":" ++ v ++ "\x7d" := by
  refine ⟨rfl, ?_⟩
  rintro ⟨v, hv⟩
  have hL : (emittedLine (fun _ => "0") 0).data.head? = some 'T' := rfl
  have hR : ("\x7b\"sensor\":\"battery\",\"value\":" ++ v ++ "\x7d").data.head? =
      some '\x7b' := rfl
  rw [hv, hR] at hL
  exact absurd hL (by decide)

/-- C8 (amended): every log line the loop emits is the fixed prefix
`Telemetry: ` followed by exactly the compact JSON object
`{"sensor":"battery","value":<float>}` — the sensor member is always
`"battery"` and the value member is the serialized converted voltage — and
the entry is written at INFO severity. -/
theorem telemetry_line_format (fmtFloat : ℚ → String) (r : AdcReadResult)
    (h : r.err = ESP_OK) :
    sampleIteration fmtFloat r =
      some (LogSeverity.info,
        "Telemetry: " ++ ("\x7b\"sensor\":\"battery\",\"value\":" ++
          fmtFloat (voltage r.raw) ++ "\x7d")) := by
  simp only [sampleIteration]
  rw [if_pos h]
  rfl

/-- Witness for C8 (amended) at the concrete read `{err := ESP_OK, raw := 4095}`
with the value text `6.60`. -/
theorem telemetry_line_format_witness :
    (({ err := 0, raw := 4095 } : AdcReadResult).err = ESP_OK) ∧
    sampleIteration (fun _ => "6.60") { err := 0, raw := 4095 } =
      some (LogSeverity.info,
        "Telemetry: \x7b\"sensor\":\"battery\",\"value\":6.60\x7d") :=
  ⟨rfl, telemetry_line_format (fun _ => "6.60") { err := 0, raw := 4095 } rfl⟩

/-- C9: for a `gpio_write` entry whose state is the number 1, the board
marker of that pin is highlighted (`state === 1` satisfies the marker
condition) while in the rendered control block both buttons keep the
inactive `btn-secondary` styling, because the button classes compare the
state only against the strings `'HIGH'` and `'LOW'`. -/
theorem numeric_one_state_marker_but_no_button (p : ℤ) (a : Option String)
    (h : boardHasPin p = true) :
    (updatePinStates (some [ApiPin.mk p (JsState.num 1) "gpio_write" a])).markerUpdates =
      [(p, true)] ∧
    (updatePinStates (some [ApiPin.mk p (JsState.num 1) "gpio_write" a])).controls =
      [PinControlBlock.mk p (aliasLabel a) "btn-secondary" "btn-secondary"] := by
  refine ⟨?_, rfl⟩
  simp [updatePinStates, markerUpdatesOf, h, pinActiveState, stateEqStr, stateEqNum]

/-- Witness for C9 at board pin 2 (the on-board LED pin, present in
`boardPins`). -/
theorem numeric_one_state_marker_but_no_button_witness :
    boardHasPin 2 = true ∧
    ((updatePinStates (some [ApiPin.mk 2 (JsState.num 1) "gpio_write" none])).markerUpdates =
      [(2, true)] ∧
     (updatePinStates (some [ApiPin.mk 2 (JsState.num 1) "gpio_write" none])).controls =
      [PinControlBlock.mk 2 (aliasLabel none) "btn-secondary" "btn-secondary"]) :=
  ⟨rfl, numeric_one_state_marker_but_no_button 2 none rfl⟩

/-- C10: a non-empty pin list without any `gpio_write` entry renders zero
control blocks and no placeholder either — the placeholder paragraph appears
only when the pin list is empty or absent, not whenever there are no
controllable pins. -/
theorem no_writable_pins_renders_neither (ps : List ApiPin) (hne : ps ≠ [])
    (hno : ∀ p ∈ ps, p.type ≠ "gpio_write") :
    (updatePinStates (some ps)).controls = [] ∧
    (updatePinStates (some ps)).noControlsMessage = none := by
  have hlen : 0 < ps.length := List.length_pos.mpr hne
  simp only [updatePinStates]
  rw [if_pos hlen]
  refine ⟨?_, rfl⟩
  exact List.filterMap_eq_nil_iff.mpr fun p hp => by simp [mkPinControl, hno p hp]

/-- Witness for C10 on the one-entry list whose pin has type `gpio_read`. -/
theorem no_writable_pins_renders_neither_witness :
    (([ApiPin.mk 5 (JsState.str "LOW") "gpio_read" none] : List ApiPin) ≠ []) ∧
    (∀ p ∈ ([ApiPin.mk 5 (JsState.str "LOW") "gpio_read" none] : List ApiPin),
       p.type ≠ "gpio_write") ∧
    ((updatePinStates (some [ApiPin.mk 5 (JsState.str "LOW") "gpio_read" none])).controls =
       [] ∧
     (updatePinStates (some [ApiPin.mk 5 (JsState.str "LOW") "gpio_read" none])).noControlsMessage =
       none) :=
  ⟨List.cons_ne_nil _ _, by decide,
   no_writable_pins_renders_neither _ (List.cons_ne_nil _ _) (by decide)⟩

/-- C4: the board table embedded (as `BOARD_CONFIG_JSON`) in every generated
document has exactly 26 entries with pairwise distinct pin numbers, and
every entry's side field is `"left"` or `"right"`. -/
theorem board_config_table_shape (sensorName sensorId sensorType : String)
    (mode : OperatingMode) (masterUrl firmwareVersion : String)
    (temperature : ℚ) (relayState : Bool) (uptime : ℕ) :
    (∃ a b, generateWebInterface sensorName sensorId sensorType mode masterUrl
        firmwareVersion temperature relayState uptime = a ++ BOARD_CONFIG_JSON ++ b) ∧
    boardPins.length = 26 ∧
    (boardPins.map BoardPin.pin).Nodup ∧
    ∀ e ∈ boardPins, e.side = "left" ∨ e.side = "right" := by
  refine ⟨⟨chunkHead ++ "<title>" ++ sensorName ++ " - ESP32</title>" ++
      chunkTitleToH1 ++ sensorName ++ chunkH1ToStatus ++ statusClassOf mode ++
      chunkStatusToIcon ++ statusIconOf mode ++ chunkIconToText ++
      statusTextOf mode ++ chunkTextToTemp ++ fmt1 temperature ++ "°C" ++
      chunkTempToRelay ++ (if relayState then "ON" else "OFF") ++
      chunkRelayToUptime ++ toString uptime ++ chunkUptimeToConfig,
      chunkTail, ?_⟩, rfl, by decide, by decide⟩
  simp only [generateWebInterface, String.append_assoc]

/-- C5: for every render context — no validity constraints on any field —
the generated document contains the sensor name inside the title element,
the temperature rendered by `fmt1` (an integer part, a dot and exactly one
decimal digit) directly before the `°C` unit, and the relay state as exactly
the string `ON` when true and `OFF` when false. -/
theorem render_context_fields_in_document (sensorName sensorId sensorType : String)
    (mode : OperatingMode) (masterUrl firmwareVersion : String)
    (temperature : ℚ) (relayState : Bool) (uptime : ℕ) :
    (∃ a b, generateWebInterface sensorName sensorId sensorType mode masterUrl
        firmwareVersion temperature relayState uptime =
        a ++ ("<title>" ++ sensorName ++ " - ESP32</title>") ++ b) ∧
    (∃ a b, generateWebInterface sensorName sensorId sensorType mode masterUrl
        firmwareVersion temperature relayState uptime =
        a ++ (fmt1 temperature ++ "°C") ++ b) ∧
    (∃ s d, d < 10 ∧
        fmt1 temperature = s ++ "." ++ String.singleton (Nat.digitChar d)) ∧
    (∃ a b, generateWebInterface sensorName sensorId sensorType mode masterUrl
        firmwareVersion temperature relayState uptime =
        a ++ (if relayState then "ON" else "OFF") ++ b) := by
  refine ⟨⟨chunkHead, chunkTitleToH1 ++ sensorName ++ chunkH1ToStatus ++
      statusClassOf mode ++ chunkStatusToIcon ++ statusIconOf mode ++
      chunkIconToText ++ statusTextOf mode ++ chunkTextToTemp ++
      fmt1 temperature ++ "°C" ++ chunkTempToRelay ++
      (if relayState then "ON" else "OFF") ++ chunkRelayToUptime ++
      toString uptime ++ chunkUptimeToConfig ++ BOARD_CONFIG_JSON ++ chunkTail, ?_⟩,
    ⟨chunkHead ++ "<title>" ++ sensorName ++ " - ESP32</title>" ++ chunkTitleToH1 ++
      sensorName ++ chunkH1ToStatus ++ statusClassOf mode ++ chunkStatusToIcon ++
      statusIconOf mode ++ chunkIconToText ++ statusTextOf mode ++ chunkTextToTemp,
      chunkTempToRelay ++ (if relayState then "ON" else "OFF") ++
      chunkRelayToUptime ++ toString uptime ++ chunkUptimeToConfig ++
      BOARD_CONFIG_JSON ++ chunkTail, ?_⟩,
    ⟨(if temperature < 0 then "-" else "") ++
      toString (|temperature| + 1 / 20).floor.toNat,
      ((|temperature| + 1 / 20) * 10).floor.toNat % 10,
      Nat.mod_lt _ (by norm_num), ?_⟩,
    ⟨chunkHead ++ "<title>" ++ sensorName ++ " - ESP32</title>" ++ chunkTitleToH1 ++
      sensorName ++ chunkH1ToStatus ++ statusClassOf mode ++ chunkStatusToIcon ++
      statusIconOf mode ++ chunkIconToText ++ statusTextOf mode ++ chunkTextToTemp ++
      fmt1 temperature ++ "°C" ++ chunkTempToRelay,
      chunkRelayToUptime ++ toString uptime ++ chunkUptimeToConfig ++
      BOARD_CONFIG_JSON ++ chunkTail, ?_⟩⟩
  · simp only [generateWebInterface, String.append_assoc]
  · simp only [generateWebInterface, String.append_assoc]
  · simp only [fmt1, String.append_assoc]
  · simp only [generateWebInterface, String.append_assoc]
